import Mathlib

/-!
Verification of the webar-volumetric repository.

Part 1 embeds the GLSL chroma-key fragment shader (`chromaKeyFragmentShader`
in `src/app.js`, identical in the standalone build) over the reals: GLSL
`clamp`, `mix`, `distance` and `pow(·, 1.5)` become their real-number
counterparts.

Part 2 embeds the mutable application state touched by the DOM event
handlers of `src/app.js` (`next-demo`, `ai-generate`, `ar-camera`) as an
explicit state machine with one event per handler resumption point.
-/

/-- An RGB color, channels as reals (GLSL `vec3`). -/
structure Vec3 where
  r : ℝ
  g : ℝ
  b : ℝ

/-- An RGBA sample, channels as reals (GLSL `vec4`). -/
structure Vec4 where
  r : ℝ
  g : ℝ
  b : ℝ
  a : ℝ

/-- The `rgb` swizzle of a `vec4`. -/
def Vec4.rgb (v : Vec4) : Vec3 := ⟨v.r, v.g, v.b⟩

/-- GLSL `clamp(x, lo, hi)`. -/
noncomputable def clampR (x lo hi : ℝ) : ℝ := min (max x lo) hi

/-- GLSL `mix(x, y, t) = x * (1 - t) + y * t`. -/
def mixR (x y t : ℝ) : ℝ := x * (1 - t) + y * t

/-- GLSL `distance` on `vec2`: Euclidean distance. -/
noncomputable def distUV (p q : ℝ × ℝ) : ℝ :=
  Real.sqrt ((p.1 - q.1) ^ 2 + (p.2 - q.2) ^ 2)

/-- `RGBtoUV` from the fragment shader: the fixed linear chroma transform. -/
def RGBtoUV (rgb : Vec3) : ℝ × ℝ :=
  (rgb.r * (-0.169) + rgb.g * (-0.331) + rgb.b * 0.5 + 0.5,
   rgb.r * 0.5 + rgb.g * (-0.419) + rgb.b * (-0.081) + 0.5)

/-- `chromaDist` of the shader: distance of sample and key color in UV space. -/
noncomputable def chromaDist (rgb keyColor : Vec3) : ℝ :=
  distUV (RGBtoUV rgb) (RGBtoUV keyColor)

/-- The alpha computation of the shader as a function of the chroma distance:
`pow(clamp((d - similarity) / smoothness, 0, 1), 1.5)`. -/
noncomputable def alphaOfDist (similarity smoothness d : ℝ) : ℝ :=
  clampR ((d - similarity) / smoothness) 0 1 ^ (1.5 : ℝ)

/-- `main` of `chromaKeyFragmentShader`: per-pixel chroma-key classification
(`src/app.js` lines 33-43). -/
noncomputable def shaderMain (keyColor : Vec3) (similarity smoothness spill : ℝ)
    (rgba : Vec4) : Vec4 :=
  let chromaD := chromaDist rgba.rgb keyColor
  let baseMask := chromaD - similarity
  let fullMask := clampR (baseMask / smoothness) 0 1 ^ (1.5 : ℝ)
  let spillVal := clampR (baseMask / spill) 0 1 ^ (1.5 : ℝ)
  let desat := clampR (rgba.r * 0.2126 + rgba.g * 0.7152 + rgba.b * 0.0722) 0 1
  { r := mixR desat rgba.r spillVal,
    g := mixR desat rgba.g spillVal,
    b := mixR desat rgba.b spillVal,
    a := fullMask }

-- ── Basic lemmas about the shader pieces ──

lemma clampR_nonneg (x : ℝ) : 0 ≤ clampR x 0 1 :=
  le_min (le_max_right x 0) zero_le_one

lemma clampR_le_one (x : ℝ) : clampR x 0 1 ≤ 1 :=
  min_le_right _ 1

lemma clampR_of_nonpos {x : ℝ} (h : x ≤ 0) : clampR x 0 1 = 0 := by
  unfold clampR
  rw [max_eq_right h]
  exact min_eq_left zero_le_one

lemma clampR_of_one_le {x : ℝ} (h : 1 ≤ x) : clampR x 0 1 = 1 := by
  unfold clampR
  rw [max_eq_left (le_trans zero_le_one h)]
  exact min_eq_right h

lemma clampR_mono {x y : ℝ} (h : x ≤ y) : clampR x 0 1 ≤ clampR y 0 1 :=
  min_le_min (max_le_max h le_rfl) le_rfl

lemma chromaDist_self (v : Vec3) : chromaDist v v = 0 := by
  unfold chromaDist distUV
  simp

lemma chromaDist_nonneg (v k : Vec3) : 0 ≤ chromaDist v k :=
  Real.sqrt_nonneg _

lemma shaderMain_alpha (keyColor : Vec3) (similarity smoothness spill : ℝ)
    (rgba : Vec4) :
    (shaderMain keyColor similarity smoothness spill rgba).a =
      alphaOfDist similarity smoothness (chromaDist rgba.rgb keyColor) := rfl

lemma alphaOfDist_nonneg (s m d : ℝ) : 0 ≤ alphaOfDist s m d :=
  Real.rpow_nonneg (clampR_nonneg _) _

lemma alphaOfDist_le_one (s m d : ℝ) : alphaOfDist s m d ≤ 1 :=
  Real.rpow_le_one (clampR_nonneg _) (clampR_le_one _) (by norm_num)

lemma alphaOfDist_of_le {s m d : ℝ} (hm : 0 < m) (h : d ≤ s) :
    alphaOfDist s m d = 0 := by
  unfold alphaOfDist
  rw [clampR_of_nonpos (div_nonpos_of_nonpos_of_nonneg (by linarith) hm.le)]
  exact Real.zero_rpow (by norm_num)

lemma alphaOfDist_of_ge {s m d : ℝ} (hm : 0 < m) (h : s + m ≤ d) :
    alphaOfDist s m d = 1 := by
  unfold alphaOfDist
  rw [clampR_of_one_le ((le_div_iff₀ hm).mpr (by linarith))]
  exact Real.one_rpow _

lemma alphaOfDist_mono {s m d₁ d₂ : ℝ} (hm : 0 < m) (h : d₁ ≤ d₂) :
    alphaOfDist s m d₁ ≤ alphaOfDist s m d₂ :=
  Real.rpow_le_rpow (clampR_nonneg _)
    (clampR_mono (div_le_div_of_nonneg_right (by linarith) hm.le)) (by norm_num)

/-- Claim C1: a pixel whose RGB triple equals the key color has
`chromaDist = 0`, hence `baseMask = -similarity`, and for any
`similarity > 0` the output alpha is 0 (fully transparent). -/
theorem key_color_pixel_transparent (key : Vec3) (similarity smoothness spill aIn : ℝ)
    (hsim : 0 < similarity) (hsm : 0 < smoothness) :
    chromaDist (Vec4.rgb ⟨key.r, key.g, key.b, aIn⟩) key = 0 ∧
    chromaDist (Vec4.rgb ⟨key.r, key.g, key.b, aIn⟩) key - similarity = -similarity ∧
    (shaderMain key similarity smoothness spill ⟨key.r, key.g, key.b, aIn⟩).a = 0 := by
  have hd : chromaDist (Vec4.rgb ⟨key.r, key.g, key.b, aIn⟩) key = 0 := by
    have : Vec4.rgb ⟨key.r, key.g, key.b, aIn⟩ = key := rfl
    rw [this, chromaDist_self]
  refine ⟨hd, by rw [hd]; ring, ?_⟩
  rw [shaderMain_alpha, hd]
  exact alphaOfDist_of_le hsm hsim.le

/-- Witness for C1 at the default parameters of `src/app.js`
(keyColor green, similarity 0.3, smoothness 0.1). -/
theorem key_color_pixel_transparent_witness :
    (shaderMain ⟨0, 1, 0⟩ 0.3 0.1 0.15 ⟨0, 1, 0, 1⟩).a = 0 :=
  (key_color_pixel_transparent ⟨0, 1, 0⟩ 0.3 0.1 0.15 1
    (by norm_num) (by norm_num)).2.2

/-- Claim C2: a pixel whose chroma distance from the key color is at least
`similarity + smoothness` (with `smoothness > 0`) gets output alpha 1. -/
theorem far_pixel_opaque (key : Vec3) (similarity smoothness spill : ℝ) (rgba : Vec4)
    (hsm : 0 < smoothness)
    (h : similarity + smoothness ≤ chromaDist rgba.rgb key) :
    (shaderMain key similarity smoothness spill rgba).a = 1 := by
  rw [shaderMain_alpha]
  exact alphaOfDist_of_ge hsm h

lemma chromaDist_red_green : (0.48 : ℝ) ≤ chromaDist ⟨1, 0, 0⟩ ⟨0, 1, 0⟩ := by
  have h : chromaDist ⟨1, 0, 0⟩ ⟨0, 1, 0⟩ = Real.sqrt 0.870805 := by
    unfold chromaDist distUV RGBtoUV
    norm_num
  rw [h, show (0.48 : ℝ) = Real.sqrt (0.48 ^ 2) from (Real.sqrt_sq (by norm_num)).symm]
  exact Real.sqrt_le_sqrt (by norm_num)

/-- Witness for C2: a pure red pixel against the green key with the
standalone build's parameters (similarity 0.4, smoothness 0.08). -/
theorem far_pixel_opaque_witness :
    (shaderMain ⟨0, 1, 0⟩ 0.4 0.08 0.1 ⟨1, 0, 0, 1⟩).a = 1 :=
  far_pixel_opaque ⟨0, 1, 0⟩ 0.4 0.08 0.1 ⟨1, 0, 0, 1⟩ (by norm_num)
    (by have hv : Vec4.rgb ⟨1, 0, 0, 1⟩ = (⟨1, 0, 0⟩ : Vec3) := rfl
        rw [hv]
        have := chromaDist_red_green
        linarith)

/-- Claim C3: for fixed parameters with `smoothness > 0`, output alpha is
monotonically non-decreasing in the chroma distance. -/
theorem alpha_monotone_in_chromaDist (key : Vec3) (similarity smoothness spill : ℝ)
    (p₁ p₂ : Vec4) (hsm : 0 < smoothness)
    (h : chromaDist p₁.rgb key ≤ chromaDist p₂.rgb key) :
    (shaderMain key similarity smoothness spill p₁).a ≤
      (shaderMain key similarity smoothness spill p₂).a := by
  rw [shaderMain_alpha, shaderMain_alpha]
  exact alphaOfDist_mono hsm h

/-- Witness for C3: a green pixel is no farther from the green key
than a red pixel, so its alpha is no larger. -/
theorem alpha_monotone_in_chromaDist_witness :
    (shaderMain ⟨0, 1, 0⟩ 0.3 0.1 0.15 ⟨0, 1, 0, 1⟩).a ≤
      (shaderMain ⟨0, 1, 0⟩ 0.3 0.1 0.15 ⟨1, 0, 0, 1⟩).a :=
  alpha_monotone_in_chromaDist ⟨0, 1, 0⟩ 0.3 0.1 0.15 ⟨0, 1, 0, 1⟩ ⟨1, 0, 0, 1⟩
    (by norm_num)
    (by show chromaDist ⟨0, 1, 0⟩ ⟨0, 1, 0⟩ ≤ chromaDist ⟨1, 0, 0⟩ ⟨0, 1, 0⟩
        rw [chromaDist_self]
        exact chromaDist_nonneg _ _)

/-- The classifier as the specification words it, steps 1-7 of §4.1:
`spillFactor` from the `spill` divisor, `alpha` from the `smoothness`
divisor, `desaturatedLuma` with coefficient-first luma weights, output
color the linear blend from the gray toward the original by `spillFactor`. -/
noncomputable def specClassifier (keyColor : Vec3) (similarity smoothness spill : ℝ)
    (p : Vec4) : Vec4 :=
  let chromaDistance := distUV (RGBtoUV p.rgb) (RGBtoUV keyColor)
  let baseMask := chromaDistance - similarity
  let alpha := clampR (baseMask / smoothness) 0 1 ^ (1.5 : ℝ)
  let spillFactor := clampR (baseMask / spill) 0 1 ^ (1.5 : ℝ)
  let desaturatedLuma := clampR (0.2126 * p.r + 0.7152 * p.g + 0.0722 * p.b) 0 1
  { r := desaturatedLuma + (p.r - desaturatedLuma) * spillFactor,
    g := desaturatedLuma + (p.g - desaturatedLuma) * spillFactor,
    b := desaturatedLuma + (p.b - desaturatedLuma) * spillFactor,
    a := alpha }

/-- Claim C4: the shader's output is exactly the specification's
`mix(gray(desaturatedLuma), originalRGB, spillFactor)` with `spillFactor`
computed from the `spill` divisor independently of the alpha from the
`smoothness` divisor, and the output alpha is the step-4 alpha. -/
theorem shader_matches_spec_classifier (keyColor : Vec3)
    (similarity smoothness spill : ℝ) (p : Vec4) :
    shaderMain keyColor similarity smoothness spill p =
      specClassifier keyColor similarity smoothness spill p := by
  simp only [shaderMain, specClassifier, mixR, chromaDist]
  have hl : p.r * 0.2126 + p.g * 0.7152 + p.b * 0.0722 =
      0.2126 * p.r + 0.7152 * p.g + 0.0722 * p.b := by ring
  rw [hl]
  simp only [Vec4.mk.injEq]
  refine ⟨by ring, by ring, by ring, trivial⟩

/-- Claim C5: with keyColor green, similarity 0.4 and smoothness 0.08, a
pure green pixel yields alpha 0 and a pure red pixel yields alpha 1, with
`RGBtoUV` being precisely the stated linear transform. -/
theorem scenario_green_transparent_red_opaque :
    (shaderMain ⟨0, 1, 0⟩ 0.4 0.08 0.1 ⟨0, 1, 0, 1⟩).a = 0 ∧
    (shaderMain ⟨0, 1, 0⟩ 0.4 0.08 0.1 ⟨1, 0, 0, 1⟩).a = 1 ∧
    ∀ v : Vec3, RGBtoUV v =
      (v.r * (-0.169) + v.g * (-0.331) + v.b * 0.5 + 0.5,
       v.r * 0.5 + v.g * (-0.419) + v.b * (-0.081) + 0.5) := by
  refine ⟨?_, ?_, fun v => rfl⟩
  · rw [shaderMain_alpha]
    have : Vec4.rgb ⟨0, 1, 0, 1⟩ = (⟨0, 1, 0⟩ : Vec3) := rfl
    rw [this, chromaDist_self]
    exact alphaOfDist_of_le (by norm_num) (by norm_num)
  · rw [shaderMain_alpha]
    have hv : Vec4.rgb ⟨1, 0, 0, 1⟩ = (⟨1, 0, 0⟩ : Vec3) := rfl
    rw [hv]
    exact alphaOfDist_of_ge (by norm_num)
      (by have := chromaDist_red_green; linarith)

lemma mixR_bounds {x y t : ℝ} (hx0 : 0 ≤ x) (hx1 : x ≤ 1) (hy0 : 0 ≤ y)
    (hy1 : y ≤ 1) (ht0 : 0 ≤ t) (ht1 : t ≤ 1) :
    0 ≤ mixR x y t ∧ mixR x y t ≤ 1 := by
  unfold mixR
  constructor <;> nlinarith

/-- Claim C9: for input channels in [0,1] and positive smoothness and spill,
every output channel of the classifier lies in [0,1]. -/
theorem classifier_output_in_unit_range (key : Vec3)
    (similarity smoothness spill : ℝ) (p : Vec4)
    (hsm : 0 < smoothness) (hsp : 0 < spill)
    (hr0 : 0 ≤ p.r) (hr1 : p.r ≤ 1) (hg0 : 0 ≤ p.g) (hg1 : p.g ≤ 1)
    (hb0 : 0 ≤ p.b) (hb1 : p.b ≤ 1) (ha0 : 0 ≤ p.a) (ha1 : p.a ≤ 1) :
    let q := shaderMain key similarity smoothness spill p
    (0 ≤ q.r ∧ q.r ≤ 1) ∧ (0 ≤ q.g ∧ q.g ≤ 1) ∧
    (0 ≤ q.b ∧ q.b ≤ 1) ∧ (0 ≤ q.a ∧ q.a ≤ 1) := by
  intro q
  have hspill0 : 0 ≤ clampR ((chromaDist p.rgb key - similarity) / spill) 0 1 ^ (1.5 : ℝ) :=
    Real.rpow_nonneg (clampR_nonneg _) _
  have hspill1 : clampR ((chromaDist p.rgb key - similarity) / spill) 0 1 ^ (1.5 : ℝ) ≤ 1 :=
    Real.rpow_le_one (clampR_nonneg _) (clampR_le_one _) (by norm_num)
  have hd0 : 0 ≤ clampR (p.r * 0.2126 + p.g * 0.7152 + p.b * 0.0722) 0 1 :=
    clampR_nonneg _
  have hd1 : clampR (p.r * 0.2126 + p.g * 0.7152 + p.b * 0.0722) 0 1 ≤ 1 :=
    clampR_le_one _
  refine ⟨?_, ?_, ?_, ?_⟩
  · exact mixR_bounds hd0 hd1 hr0 hr1 hspill0 hspill1
  · exact mixR_bounds hd0 hd1 hg0 hg1 hspill0 hspill1
  · exact mixR_bounds hd0 hd1 hb0 hb1 hspill0 hspill1
  · exact ⟨alphaOfDist_nonneg _ _ _, alphaOfDist_le_one _ _ _⟩

/-- Witness for C9 at a mid-gray pixel and the default parameters. -/
theorem classifier_output_in_unit_range_witness :
    let q := shaderMain ⟨0, 1, 0⟩ 0.3 0.1 0.15 ⟨0.5, 0.5, 0.5, 1⟩
    (0 ≤ q.r ∧ q.r ≤ 1) ∧ (0 ≤ q.g ∧ q.g ≤ 1) ∧
    (0 ≤ q.b ∧ q.b ≤ 1) ∧ (0 ≤ q.a ∧ q.a ≤ 1) :=
  classifier_output_in_unit_range ⟨0, 1, 0⟩ 0.3 0.1 0.15 ⟨0.5, 0.5, 0.5, 1⟩
    (by norm_num) (by norm_num) (by norm_num) (by norm_num) (by norm_num)
    (by norm_num) (by norm_num) (by norm_num) (by norm_num) (by norm_num)

/-!
Part 2: the mutable application state of `src/app.js` and its event
handlers, as a state machine. One event per handler resumption point:
the `await` inside the `ai-generate` handler splits it into the click
prefix and a success/failure continuation; likewise `getUserMedia`
splits the AR start branch.
-/

/-- An entry of the `DEMOS` list, identified by its `name` (the entry's
`draw` routine is determined by the entry). -/
structure Demo where
  name : String
deriving DecidableEq

/-- The `AI_SCENE_PROMPTS` rotation list. -/
def aiScenePrompts : List String :=
  ["holographic dancer performing in neon lights dark stage",
   "floating crystal orb with swirling energy inside dark void",
   "ethereal ghost figure glowing translucent on dark background",
   "robot DJ with turntables neon cyberpunk stage dark background",
   "phoenix bird made of fire rising dark background",
   "astronaut floating in space with stars and nebula",
   "samurai warrior with glowing sword dark misty background",
   "dragon breathing colorful fire dark fantasy background"]

/-- The mutable state of `src/app.js` that the handlers touch. `activeTex`
is the identity of `material.uniforms.tex.value` (the buffer the chroma-key
classifier samples); `streamTracks` are the tracks of `window._arStream`
with `true` meaning stopped; `arStream` records `window._arStream !== null`;
`arActive` is the `ar-camera` button's `dataset.active`. -/
structure AppState where
  demos : List Demo
  currentDemo : Nat
  aiImageLoading : Bool
  aiPromptIndex : Nat
  pendingPrompt : Option String
  activeTex : Nat
  nextTexId : Nat
  fetchesInFlight : Nat
  requestsIssued : Nat
  arActive : Bool
  arStream : Bool
  streamTracks : List Bool
  toast : Option String
deriving DecidableEq

/-- The state after `init` has run: three procedural demos, index 0,
no fetch in flight, no camera stream. -/
def initialState : AppState where
  demos := [⟨"Dancing Robot"⟩, ⟨"Spinning Logo"⟩, ⟨"Particle Storm"⟩]
  currentDemo := 0
  aiImageLoading := false
  aiPromptIndex := 0
  pendingPrompt := none
  activeTex := 0
  nextTexId := 1
  fetchesInFlight := 0
  requestsIssued := 0
  arActive := false
  arStream := false
  streamTracks := []
  toast := none

/-- Events: `clickNextDemo` is the `next-demo` handler; `clickGenerate`
is the `ai-generate` handler up to its `await` (with the trimmed custom
prompt, if any); `fetchSuccess` and `fetchFailure` resume it when the
texture promise settles; `arToggle` is the `ar-camera` click (the stop
branch is synchronous, the start branch only issues a `getUserMedia`
request); `arGranted n` resumes the start branch with a stream of `n`
live tracks and `arDenied` with a permission error. -/
inductive AppEvent
  | clickNextDemo
  | clickGenerate (customPrompt : Option String)
  | fetchSuccess
  | fetchFailure
  | arToggle
  | arGranted (tracks : Nat)
  | arDenied
deriving DecidableEq

/-- One transition of the application state per event, following the
handler bodies in `src/app.js`. -/
def appStep (s : AppState) : AppEvent → AppState
  | .clickNextDemo =>
      { s with currentDemo := (s.currentDemo + 1) % s.demos.length }
  | .clickGenerate customPrompt =>
      if s.aiImageLoading then s
      else
        { s with aiImageLoading := true,
                 pendingPrompt := customPrompt,
                 aiPromptIndex := s.aiPromptIndex + 1,
                 requestsIssued := s.requestsIssued + 1,
                 fetchesInFlight := s.fetchesInFlight + 1 }
  | .fetchSuccess =>
      if s.fetchesInFlight = 0 then s
      else
        let promptName := (s.pendingPrompt.getD
          (aiScenePrompts.getD ((s.aiPromptIndex - 1) % aiScenePrompts.length) ""))
        { s with demos := s.demos ++ [⟨"AI: " ++ promptName.take 25⟩],
                 currentDemo := s.demos.length,
                 activeTex := s.nextTexId,
                 nextTexId := s.nextTexId + 1,
                 toast := some "AI scene loaded!",
                 aiImageLoading := false,
                 fetchesInFlight := s.fetchesInFlight - 1 }
  | .fetchFailure =>
      if s.fetchesInFlight = 0 then s
      else
        { s with toast := some "AI generation failed — try again",
                 aiImageLoading := false,
                 fetchesInFlight := s.fetchesInFlight - 1 }
  | .arToggle =>
      if s.arActive then
        let s₁ :=
          if s.arStream then
            { s with streamTracks := s.streamTracks.map (fun _ => true),
                     arStream := false }
          else s
        { s₁ with arActive := false, toast := some "AR mode off" }
      else s
  | .arGranted n =>
      { s with arStream := true,
               streamTracks := List.replicate n false,
               arActive := true,
               toast := some "AR Camera active — content overlays your view" }
  | .arDenied =>
      { s with toast := some "Camera access denied" }

/-- Running a sequence of events from a state. -/
def appRun (s : AppState) (evs : List AppEvent) : AppState :=
  evs.foldl appStep s

/-- The producer `animate` reads on the next tick: `DEMOS[currentDemo]`. -/
def tickProducer (s : AppState) : Option Demo :=
  s.demos[s.currentDemo]?

/-- The `aiImageLoading` flag tracks exactly whether a texture fetch is
in flight. -/
def FlightInv (s : AppState) : Prop :=
  s.fetchesInFlight = (if s.aiImageLoading then 1 else 0)

lemma flightInv_initial : FlightInv initialState := rfl

lemma flightInv_step {s : AppState} (h : FlightInv s) (e : AppEvent) :
    FlightInv (appStep s e) := by
  cases e <;>
    simp only [appStep, FlightInv] at h ⊢ <;>
    split_ifs <;>
    simp_all

lemma flightInv_run (evs : List AppEvent) {s : AppState} (h : FlightInv s) :
    FlightInv (appRun s evs) := by
  induction evs generalizing s with
  | nil => exact h
  | cons e evs ih => exact ih (flightInv_step h e)

/-- Claim C6: from any reachable state at most one fetch is in flight,
and two back-to-back StaticImage activation clicks while the first is
unresolved issue exactly one network request. -/
theorem single_fetch_in_flight (evs : List AppEvent) (p₁ p₂ : Option String) :
    (appRun initialState evs).fetchesInFlight ≤ 1 ∧
    ((appRun initialState evs).aiImageLoading = false →
      (appStep (appStep (appRun initialState evs) (.clickGenerate p₁))
          (.clickGenerate p₂)).requestsIssued =
        (appRun initialState evs).requestsIssued + 1) := by
  have hinv := flightInv_run evs flightInv_initial
  constructor
  · rw [hinv]
    split <;> omega
  · intro h
    simp [appStep, h]

/-- Witness for C6: two clicks right after startup issue one request. -/
theorem single_fetch_in_flight_witness :
    (appRun initialState []).aiImageLoading = false ∧
    (appStep (appStep (appRun initialState []) (.clickGenerate none))
        (.clickGenerate none)).requestsIssued =
      (appRun initialState []).requestsIssued + 1 :=
  ⟨rfl, (single_fetch_in_flight [] none none).2 rfl⟩

/-- Claim C7: a failed StaticImage fetch leaves everything the classifier
can see unchanged — active texture, demo list, demo index, and hence the
producer drawn on the next tick — and surfaces a transient notice. -/
theorem fetch_failure_preserves_display (s : AppState)
    (h : 0 < s.fetchesInFlight) :
    (appStep s .fetchFailure).activeTex = s.activeTex ∧
    (appStep s .fetchFailure).demos = s.demos ∧
    (appStep s .fetchFailure).currentDemo = s.currentDemo ∧
    tickProducer (appStep s .fetchFailure) = tickProducer s ∧
    (appStep s .fetchFailure).toast = some "AI generation failed — try again" := by
  simp [appStep, tickProducer, h.ne']

/-- Witness for C7: a failing fetch from the startup state with one
request in flight. -/
theorem fetch_failure_preserves_display_witness :
    0 < (appStep initialState (.clickGenerate none)).fetchesInFlight ∧
    (appStep (appStep initialState (.clickGenerate none)) .fetchFailure).activeTex =
      (appStep initialState (.clickGenerate none)).activeTex ∧
    (appStep (appStep initialState (.clickGenerate none)) .fetchFailure).demos =
      (appStep initialState (.clickGenerate none)).demos ∧
    (appStep (appStep initialState (.clickGenerate none)) .fetchFailure).currentDemo =
      (appStep initialState (.clickGenerate none)).currentDemo ∧
    tickProducer (appStep (appStep initialState (.clickGenerate none)) .fetchFailure) =
      tickProducer (appStep initialState (.clickGenerate none)) ∧
    (appStep (appStep initialState (.clickGenerate none)) .fetchFailure).toast =
      some "AI generation failed — try again" :=
  ⟨by decide,
   fetch_failure_preserves_display (appStep initialState (.clickGenerate none))
     (by decide)⟩

/-- Claim C8: stopping an active camera stream stops every stored track,
clears the stream reference, and leaves the billboard's texture and the
per-tick producer exactly as before. -/
theorem camera_stop_releases_device (s : AppState)
    (hact : s.arActive = true) (hstr : s.arStream = true) :
    (∀ t ∈ (appStep s .arToggle).streamTracks, t = true) ∧
    (appStep s .arToggle).arStream = false ∧
    (appStep s .arToggle).arActive = false ∧
    (appStep s .arToggle).activeTex = s.activeTex ∧
    (appStep s .arToggle).demos = s.demos ∧
    (appStep s .arToggle).currentDemo = s.currentDemo ∧
    tickProducer (appStep s .arToggle) = tickProducer s := by
  simp [appStep, tickProducer, hact, hstr]

/-- Witness for C8: stopping the camera right after a grant of two tracks. -/
theorem camera_stop_releases_device_witness :
    (∀ t ∈ (appStep (appStep initialState (.arGranted 2)) .arToggle).streamTracks,
        t = true) ∧
    (appStep (appStep initialState (.arGranted 2)) .arToggle).arStream = false ∧
    (appStep (appStep initialState (.arGranted 2)) .arToggle).arActive = false ∧
    (appStep (appStep initialState (.arGranted 2)) .arToggle).activeTex =
      (appStep initialState (.arGranted 2)).activeTex ∧
    (appStep (appStep initialState (.arGranted 2)) .arToggle).demos =
      (appStep initialState (.arGranted 2)).demos ∧
    (appStep (appStep initialState (.arGranted 2)) .arToggle).currentDemo =
      (appStep initialState (.arGranted 2)).currentDemo ∧
    tickProducer (appStep (appStep initialState (.arGranted 2)) .arToggle) =
      tickProducer (appStep initialState (.arGranted 2)) :=
  camera_stop_releases_device (appStep initialState (.arGranted 2)) rfl rfl

/-- The demo index stays strictly below the length of a non-empty list. -/
def DemoInv (s : AppState) : Prop :=
  0 < s.demos.length ∧ s.currentDemo < s.demos.length

lemma demoInv_initial : DemoInv initialState := by
  constructor <;> simp [initialState]

lemma demoInv_step {s : AppState} (h : DemoInv s) (e : AppEvent) :
    DemoInv (appStep s e) := by
  obtain ⟨hlen, hcur⟩ := h
  cases e with
  | clickNextDemo => exact ⟨hlen, Nat.mod_lt _ hlen⟩
  | clickGenerate p =>
      by_cases hld : s.aiImageLoading <;> simp [appStep, hld, DemoInv, hlen, hcur]
  | fetchSuccess =>
      by_cases hf : s.fetchesInFlight = 0 <;>
        simp [appStep, hf, DemoInv, hlen, hcur]
  | fetchFailure =>
      by_cases hf : s.fetchesInFlight = 0 <;>
        simp [appStep, hf, DemoInv, hlen, hcur]
  | arToggle =>
      by_cases ha : s.arActive <;> by_cases hs : s.arStream <;>
        simp [appStep, ha, hs, DemoInv, hlen, hcur]
  | arGranted n => exact ⟨hlen, hcur⟩
  | arDenied => exact ⟨hlen, hcur⟩

lemma demoInv_run (evs : List AppEvent) {s : AppState} (h : DemoInv s) :
    DemoInv (appRun s evs) := by
  induction evs generalizing s with
  | nil => exact h
  | cons e evs ih => exact ih (demoInv_step h e)

/-- Claim C10: after any sequence of events the demo index is in bounds,
so the per-tick lookup `DEMOS[currentDemo]` is defined. -/
theorem demo_index_in_bounds (evs : List AppEvent) :
    (appRun initialState evs).currentDemo <
      (appRun initialState evs).demos.length ∧
    (tickProducer (appRun initialState evs)).isSome := by
  have h := demoInv_run evs demoInv_initial
  refine ⟨h.2, ?_⟩
  unfold tickProducer
  rw [List.getElem?_eq_getElem h.2]
  rfl
